import Mathlib

/-!
Shallow embedding of the `smart-schedulers` coordination plane:
the minute-idempotency store, the planner engine, the power-threshold
decision service, the dispatcher's publish-failure handling and the
ACK consumer, together with proofs of the specification claims.

Python floats appear only in the unit-conversion round-trip claim; there
they are modelled as IEEE binary64 round-to-nearest-even in the normal
range.  All other numeric quantities (timestamps, power values, intervals)
are modelled as exact rationals, and Python `None` as `Option`.
-/

/- ### Python string primitives used by `_normalize_unit` -/

/-- ASCII whitespace recognised by Python `str.strip()` (the unit strings
in this system are ASCII). -/
def isPySpace (c : Char) : Bool :=
  c == ' ' || c == '\t' || c == '\n' || c == '\r' ||
    c == Char.ofNat 11 || c == Char.ofNat 12

/-- `str.strip()` on the underlying character list. -/
def stripList (l : List Char) : List Char :=
  (((l.dropWhile isPySpace).reverse).dropWhile isPySpace).reverse

/-- Python `str.strip()`. -/
def pyStrip (s : String) : String :=
  String.mk (stripList s.toList)

/-- Python `str.lower()` (ASCII case folding, which agrees with Python on
the ASCII unit strings this system compares). -/
def pyLower (s : String) : String :=
  String.map Char.toLower s

/- ### smart_common.services.scheduler_decision_service -/

/-- `DecisionKind` from `smart_common.schemas.scheduler_runtime`
(values as used throughout `scheduler_decision_service.py` and
`engine.py`). -/
inductive DecisionKind where
  | ALLOW_ON
  | SKIP_NO_POWER_DATA
  | SKIP_THRESHOLD_NOT_MET
deriving DecidableEq

/-- `Decision` payload: kind, trigger reason, optional measured value
(exact rational) and unit. -/
structure Decision where
  kind : DecisionKind
  trigger_reason : String
  measured_value : Option ℚ
  measured_unit : Option String
deriving DecidableEq

/-- A Python `datetime`: wall-clock seconds together with an optional UTC
offset (`none` = naive). -/
structure PyDatetime where
  wall : ℚ
  tzOffset : Option ℚ
deriving DecidableEq

/-- `_to_utc_aware`: a naive datetime is interpreted as UTC; an aware one
is converted to UTC preserving the instant.  Returns the UTC instant in
seconds. -/
def _to_utc_aware (d : PyDatetime) : ℚ :=
  match d.tzOffset with
  | none => d.wall
  | some o => d.wall - o

/-- `Provider` model fields consumed by the decision service. -/
structure Provider where
  enabled : Bool
  expected_interval_sec : Option ℚ
  unit : Option String
deriving DecidableEq

/-- `ProviderMeasurement` model fields consumed by the decision service. -/
structure ProviderMeasurement where
  measured_at : PyDatetime
  measured_value : Option ℚ
  measured_unit : Option String
deriving DecidableEq

/-- `DueSchedulerEntry` fields consumed by the decision service and the
planner. -/
structure DueSchedulerEntry where
  device_id : ℕ
  slot_id : ℕ
  microcontroller_power_provider_id : Option ℕ
  use_power_threshold : Bool
  power_threshold_value : Option ℚ
  power_threshold_unit : Option String
deriving DecidableEq

/-- `_normalize_unit`: strip, then case-insensitively canonicalise
`w|kw|mw`; blank becomes `None`; unknown units pass through. -/
def _normalize_unit (value : Option String) : Option String :=
  match value with
  | none => none
  | some v =>
    let normalized := pyStrip v
    if normalized = "" then none
    else if pyLower normalized = "kw" then some "kW"
    else if pyLower normalized = "mw" then some "MW"
    else if pyLower normalized = "w" then some "W"
    else some normalized

/-- `_POWER_FACTORS` lookup table. -/
def _POWER_FACTORS (u : String) : Option ℚ :=
  if u = "W" then some 1
  else if u = "kW" then some 1000
  else if u = "MW" then some 1000000
  else none

/-- `_convert_power_unit` in exact arithmetic: multiply by the source
factor and divide by the target factor (the float-rounded variant used
for the round-trip claim is `_convert_power_unit_f` below). -/
def _convert_power_unit (value : ℚ) (from_unit to_unit : Option String) :
    Option ℚ :=
  match _normalize_unit from_unit, _normalize_unit to_unit with
  | some nf, some nt =>
    match _POWER_FACTORS nf, _POWER_FACTORS nt with
    | some from_factor, some to_factor => some (value * from_factor / to_factor)
    | _, _ => none
  | _, _ => none

/-- `SchedulerDecisionService.decide`, translated branch by branch from
`scheduler_decision_service.py`. -/
def SchedulerDecisionService.decide (entry : DueSchedulerEntry) (now_utc : ℚ)
    (provider : Option Provider)
    (latest_measurement : Option ProviderMeasurement) : Decision :=
  if entry.use_power_threshold = false then
    ⟨.ALLOW_ON, "SCHEDULER_MATCH", none, none⟩
  else
    match entry.power_threshold_value,
        _normalize_unit entry.power_threshold_unit with
    | none, _ =>
      ⟨.SKIP_NO_POWER_DATA, "THRESHOLD_CONFIG_MISSING", none, none⟩
    | some _, none =>
      ⟨.SKIP_NO_POWER_DATA, "THRESHOLD_CONFIG_MISSING", none, none⟩
    | some threshold_value, some threshold_unit =>
      match provider with
      | none => ⟨.SKIP_NO_POWER_DATA, "POWER_PROVIDER_UNAVAILABLE", none, none⟩
      | some p =>
        if p.enabled = false then
          ⟨.SKIP_NO_POWER_DATA, "POWER_PROVIDER_UNAVAILABLE", none, none⟩
        else
          match p.expected_interval_sec with
          | none => ⟨.SKIP_NO_POWER_DATA, "POWER_INTERVAL_MISSING", none, none⟩
          | some interval =>
            if interval ≤ 0 then
              ⟨.SKIP_NO_POWER_DATA, "POWER_INTERVAL_MISSING", none, none⟩
            else
              match latest_measurement with
              | none => ⟨.SKIP_NO_POWER_DATA, "POWER_MISSING", none, none⟩
              | some m =>
                let measured_at := _to_utc_aware m.measured_at
                let age_sec := now_utc - measured_at
                if interval < age_sec then
                  ⟨.SKIP_NO_POWER_DATA, "POWER_STALE", none, none⟩
                else
                  match m.measured_value with
                  | none => ⟨.SKIP_NO_POWER_DATA, "POWER_MISSING", none, none⟩
                  | some value =>
                    let provider_unit := _normalize_unit p.unit
                    let measurement_unit :=
                      (_normalize_unit m.measured_unit).orElse
                        fun _ => provider_unit
                    match _convert_power_unit value measurement_unit
                        (some threshold_unit) with
                    | none =>
                      ⟨.SKIP_NO_POWER_DATA, "POWER_UNIT_MISMATCH", none, none⟩
                    | some converted =>
                      if threshold_value ≤ converted then
                        ⟨.ALLOW_ON, "SCHEDULER_MATCH",
                          some converted, some threshold_unit⟩
                      else
                        ⟨.SKIP_THRESHOLD_NOT_MET, "THRESHOLD_NOT_MET",
                          some converted, some threshold_unit⟩

/- ### IEEE binary64 model for the float arithmetic of `_convert_power_unit`

The Python implementation computes `value * from_factor / to_factor` on
`float`s.  We model a finite double in the normal range as the rational it
denotes, and each arithmetic step as the exact rational result rounded to
53 significant bits, round-to-nearest ties-to-even (overflow and
subnormals do not arise for the power values at issue). -/

/-- Round a rational to the nearest integer, ties to even. -/
def roundNearestEven (q : ℚ) : ℤ :=
  let f := ⌊q⌋
  let frac := q - (f : ℚ)
  if frac < 1/2 then f
  else if 1/2 < frac then f + 1
  else if f % 2 = 0 then f else f + 1

/-- Scale a positive rational into the binary64 significand range
`[2^52, 2^53)` by powers of two, returning the scaled value together with
the power of two that undoes the scaling.  Fuel bounds the search; 1200
steps cover the whole double exponent range. -/
def normPos : ℕ → ℚ → ℚ → ℚ × ℚ
  | 0, q, scale => (q, scale)
  | fuel + 1, q, scale =>
    if q < 4503599627370496 then normPos fuel (q * 2) (scale / 2)
    else if 9007199254740992 ≤ q then normPos fuel (q / 2) (scale * 2)
    else (q, scale)

/-- Round a nonnegative rational to the nearest binary64 value
(normal range). -/
def roundDoublePos (q : ℚ) : ℚ :=
  let p := normPos 1200 q 1
  (roundNearestEven p.1 : ℚ) * p.2

/-- Round a rational to the nearest binary64 value (normal range,
round-to-nearest ties-to-even). -/
def roundDouble (q : ℚ) : ℚ :=
  if 0 < q then roundDoublePos q
  else if q < 0 then -(roundDoublePos (-q))
  else 0

/-- `_convert_power_unit` with the float arithmetic of the source:
`watts = value * from_factor` and `watts / to_factor` are each rounded to
binary64. -/
def _convert_power_unit_f (value : ℚ) (from_unit to_unit : Option String) :
    Option ℚ :=
  match _normalize_unit from_unit, _normalize_unit to_unit with
  | some nf, some nt =>
    match _POWER_FACTORS nf, _POWER_FACTORS nt with
    | some from_factor, some to_factor =>
      some (roundDouble (roundDouble (value * from_factor) / to_factor))
    | _, _ => none
  | _, _ => none

/- ### app.scheduler.idempotency — MinuteIdempotencyStore (memory backend)

The local in-memory backend of `MinuteIdempotencyStore`.  The Python dict
mapping keys to monotonic expiry instants is modelled as an association
list; `time.monotonic()` instants are rationals supplied explicitly. -/

/-- `MinuteIdempotencyStore._acquire_memory`: prune expired entries, then
refuse if the key is present, otherwise record `now + ttl`.  Returns the
result together with the new map. -/
def acquireMemory (mem : List (String × ℚ)) (now ttl : ℚ) (key : String) :
    Bool × List (String × ℚ) :=
  let pruned := mem.filter fun kv => decide (now < kv.2)
  if pruned.any fun kv => kv.1 = key then (false, pruned)
  else (true, (key, now + ttl) :: pruned)

/-- The constructor clamp `self._ttl_sec = max(30, ttl_sec)`. -/
def storeTtl (ttl_sec : ℚ) : ℚ := max 30 ttl_sec

/-- A sequence of `acquire` calls on the memory backend for one key, at
the given monotonic instants; returns the list of results. -/
def acquireTrace (mem : List (String × ℚ)) (ttl : ℚ) (key : String) :
    List ℚ → List Bool
  | [] => []
  | t :: ts =>
    let r := acquireMemory mem t ttl key
    r.1 :: acquireTrace r.2 ttl key ts

/- ### Shared enums (values fixed by the spec's status machine and the
uses in `engine.py`, `dispatcher.py` and `ack_consumer.py`; the enum
modules themselves live outside this tree). -/

/-- `SchedulerCommandStatus`. -/
inductive SchedulerCommandStatus where
  | PENDING
  | IN_FLIGHT
  | PENDING_RETRY
  | ACK_OK
  | ACK_FAIL
deriving DecidableEq

/-- `SchedulerCommandAction`. -/
inductive SchedulerCommandAction where
  | ON
  | OFF
deriving DecidableEq

/-- `DeviceEventName` values used by the scheduler workers. -/
inductive DeviceEventName where
  | SCHEDULER_TRIGGER_ON
  | DEVICE_OFF
  | SCHEDULER_ACK_FAILED
  | SCHEDULER_SKIPPED_NO_POWER_DATA
  | SCHEDULER_SKIPPED_THRESHOLD_NOT_MET
deriving DecidableEq

/-- An appended audit row (`SchedulerAuditService.create_event`
arguments). -/
structure AuditEvent where
  device_id : ℕ
  event_name : DeviceEventName
  trigger_reason : String
  pin_state : Option Bool
  measured_value : Option ℚ
  measured_unit : Option String
deriving DecidableEq

/-- A command row insertion requested via
`SchedulerCommandRepository.enqueue_command`. -/
structure EnqueuedCommand where
  device_id : ℕ
  slot_id : ℕ
  action : SchedulerCommandAction
  trigger_reason : String
  measured_value : Option ℚ
  measured_unit : Option String
deriving DecidableEq

/- ### app.scheduler.engine — SchedulerEngine -/

/-- The planner tick loop of `SchedulerEngine.run` observed over a list of
wake instants (epoch seconds): each wake truncates the clock to the
minute and processes it only when `last_processed_minute` is unset or
strictly smaller.  Returns the minutes actually processed. -/
def engineTrace (last : Option ℕ) : List ℕ → List ℕ
  | [] => []
  | t :: ts =>
    let m := 60 * (t / 60)
    match last with
    | none => m :: engineTrace (some m) ts
    | some l => if l < m then m :: engineTrace (some m) ts
                else engineTrace (some l) ts

/-- Effects of one due-scan entry in `SchedulerEngine._process_minute`:
commands requested, audit events appended, number of decision-service
calls and of provider/measurement repository reads.  `granted` is the
outcome of the idempotency gate. -/
def processDueEntry (granted : Bool) (entry : DueSchedulerEntry)
    (minute_utc : ℚ) (provider : Option Provider)
    (latest : Option ProviderMeasurement) :
    List EnqueuedCommand × List AuditEvent × ℕ × ℕ :=
  if granted = false then ([], [], 0, 0)
  else
    let lookups := if entry.microcontroller_power_provider_id.isSome
      then 2 else 0
    let decision :=
      SchedulerDecisionService.decide entry minute_utc provider latest
    if decision.kind = DecisionKind.ALLOW_ON then
      ([⟨entry.device_id, entry.slot_id, .ON, decision.trigger_reason,
          decision.measured_value, decision.measured_unit⟩], [], 1, lookups)
    else
      ([],
        [⟨entry.device_id,
          (if decision.kind = DecisionKind.SKIP_NO_POWER_DATA then
            DeviceEventName.SCHEDULER_SKIPPED_NO_POWER_DATA
          else DeviceEventName.SCHEDULER_SKIPPED_THRESHOLD_NOT_MET),
          decision.trigger_reason, some false,
          decision.measured_value, decision.measured_unit⟩], 1, lookups)

/-- Effects of one end-scan entry in `SchedulerEngine._process_minute`:
after the idempotency gate an OFF command with trigger reason
`SCHEDULER_END` is requested; no decision-service call, no repository
read, no audit event. -/
def processEndEntry (granted : Bool) (entry : DueSchedulerEntry) :
    List EnqueuedCommand × List AuditEvent × ℕ × ℕ :=
  if granted = false then ([], [], 0, 0)
  else
    ([⟨entry.device_id, entry.slot_id, .OFF, "SCHEDULER_END", none, none⟩],
      [], 0, 0)

/- ### app.scheduler.ack_consumer — SchedulerAckConsumer -/

/-- JSON values as far as the ack payload logic inspects them. -/
inductive JsonValue where
  | bool (b : Bool)
  | str (s : String)
  | num (q : ℚ)
  | null
deriving DecidableEq

/-- `isinstance(value, bool)` refinement of a JSON lookup result. -/
def jsonAsBool : Option JsonValue → Option Bool
  | some (.bool b) => some b
  | _ => none

/-- `_ack_state`: first boolean among `data["actual_state"]`,
`data["is_on"]`; `None` otherwise. -/
def _ack_state (data : List (String × JsonValue)) : Option Bool :=
  match jsonAsBool (data.lookup "actual_state") with
  | some b => some b
  | none => jsonAsBool (data.lookup "is_on")

/-- A scheduler command row as mutated by the dispatcher and the ack
path. -/
structure SchedulerCommand where
  device_id : ℕ
  action : SchedulerCommandAction
  status : SchedulerCommandStatus
  attempt : ℕ
  ack_deadline_at : Option ℚ
  next_attempt_at : Option ℚ
deriving DecidableEq

/-- Modelled from the spec: `SchedulerCommandRepository.mark_ack` (the
repository module is outside this tree).  Terminal-state rule: a command
already in `ACK_OK` or `ACK_FAIL` is left untouched and `changed = false`
is reported; an unknown `command_id` reports `(None, false)`; otherwise
the command closes to `ACK_OK` when `transport_ok` else `ACK_FAIL` and
`changed = true`. -/
def mark_ack (cmd : Option SchedulerCommand) (transport_ok : Bool) :
    Option SchedulerCommand × Bool :=
  match cmd with
  | none => (none, false)
  | some c =>
    if c.status = SchedulerCommandStatus.ACK_OK ∨
        c.status = SchedulerCommandStatus.ACK_FAIL then
      (some c, false)
    else
      (some { c with status := if transport_ok then .ACK_OK else .ACK_FAIL },
        true)

/-- `_event_name_for_ack`. -/
def _event_name_for_ack (action : SchedulerCommandAction)
    (status : SchedulerCommandStatus) : DeviceEventName :=
  if status ≠ SchedulerCommandStatus.ACK_OK then .SCHEDULER_ACK_FAILED
  else if action = SchedulerCommandAction.ON then .SCHEDULER_TRIGGER_ON
  else .DEVICE_OFF

/-- Observable database effects of one `_handle_ack` invocation. -/
structure AckEffects where
  deviceStateUpdates : List (ℕ × Bool × ℚ)
  auditEvents : List AuditEvent
  committed : Bool
deriving DecidableEq

/-- The transactional body of `SchedulerAckConsumer._handle_ack` after
payload parsing: `mark_ack`, early rollback on unknown or unchanged
commands, conditional device runtime-state update, audit append,
commit. -/
def _handle_ack (lookup : Option SchedulerCommand) (transport_ok : Bool)
    (actual_state : Option Bool) (now_utc : ℚ) : AckEffects :=
  match mark_ack lookup transport_ok with
  | (none, _) => ⟨[], [], false⟩
  | (some command, changed) =>
    if changed = false then ⟨[], [], false⟩
    else
      let updates :=
        match actual_state with
        | some st =>
          if command.status = SchedulerCommandStatus.ACK_OK then
            [(command.device_id, st, now_utc)]
          else []
        | none => []
      ⟨updates,
        [⟨command.device_id,
          _event_name_for_ack command.action command.status,
          (if command.status = SchedulerCommandStatus.ACK_OK then "ACK_OK"
            else "ACK_FAILED"),
          actual_state, none, none⟩],
        true⟩

/- ### app.scheduler.dispatcher — publish-failure handling -/

/-- Modelled from the spec: `SchedulerCommandRepository.mark_publish_failure`
(the repository module is outside this tree).  Reads the command's current
attempt; below the retry budget it parks the command as `PENDING_RETRY`
with `ack_deadline_at` cleared and `next_attempt_at = now + backoff +
jitter` (the uniform draw in `[0, retry_jitter_sec]` is passed in
explicitly); otherwise it closes the command as `ACK_FAIL`. -/
def mark_publish_failure (cmd : SchedulerCommand) (now_utc : ℚ)
    (max_retry : ℕ) (retry_backoff_sec jitter : ℚ) : SchedulerCommand :=
  if cmd.attempt < max_retry + 1 then
    { cmd with
        status := .PENDING_RETRY
        ack_deadline_at := none
        next_attempt_at := some (now_utc + retry_backoff_sec + jitter) }
  else
    { cmd with status := .ACK_FAIL }

/-- Per-command body of `SchedulerDispatcher._handle_publish_failures`:
apply `mark_publish_failure`, and append the final-failure audit event
exactly when the updated status is `ACK_FAIL`. -/
def handlePublishFailure (cmd : SchedulerCommand) (now_utc : ℚ)
    (max_retry : ℕ) (retry_backoff_sec jitter : ℚ) :
    SchedulerCommand × List AuditEvent :=
  let updated := mark_publish_failure cmd now_utc max_retry
    retry_backoff_sec jitter
  if updated.status = SchedulerCommandStatus.ACK_FAIL then
    (updated,
      [⟨updated.device_id, .SCHEDULER_ACK_FAILED, "DISPATCH_PUBLISH_FAILED",
        none, none, none⟩])
  else (updated, [])

/-- Whether an (optional) raw unit string normalises to a unit the factor
table can convert. -/
def isConvertibleUnit (o : Option String) : Bool :=
  ((_normalize_unit o).bind _POWER_FACTORS).isSome

/- ### Helper lemmas -/

theorem normalize_W : _normalize_unit (some "W") = some "W" := by
  with_unfolding_all decide

theorem normalize_kW : _normalize_unit (some "kW") = some "kW" := by
  with_unfolding_all decide

theorem normalize_MW : _normalize_unit (some "MW") = some "MW" := by
  with_unfolding_all decide

theorem factors_W : _POWER_FACTORS "W" = some 1 := by decide

theorem factors_kW : _POWER_FACTORS "kW" = some 1000 := by decide

theorem factors_MW : _POWER_FACTORS "MW" = some 1000000 := by decide

/- ### Claim C6 — unit-conversion round trip -/

/-- Claim C6 (counterexample): the conversion arithmetic of the source
runs on binary64 floats, and already at `v = 1001.0` the round trip
`convert(convert(v, W, kW), kW, W)` returns
`1000.9999999999999` (exactly `8804889115230207 / 2^43`), not `v`. -/
theorem convert_roundtrip_float_counterexample :
    ((_convert_power_unit_f 1001 (some "W") (some "kW")).bind
      fun r => _convert_power_unit_f r (some "kW") (some "W")) ≠
      some 1001 := by
  set_option maxRecDepth 10000 in with_unfolding_all decide

/-- Claim C6 (amended): with the conversion arithmetic carried out
exactly — multiply by the source-unit factor (`W=1`, `kW=1000`,
`MW=1e6`) and divide by the target-unit factor — the W→kW→W round trip
returns `v` for every value `v`; the float implementation realises this
only up to binary64 rounding. -/
theorem convert_roundtrip_exact (v : ℚ) :
    (_convert_power_unit v (some "W") (some "kW")).bind
      (fun r => _convert_power_unit r (some "kW") (some "W")) = some v := by
  simp only [_convert_power_unit, normalize_W, normalize_kW,
    factors_W, factors_kW, Option.bind_some]
  norm_num

/- ### Claim C7 — planner processes minutes strictly monotonically -/

theorem engineTrace_some_lt (ts : List ℕ) :
    ∀ l, (∀ m ∈ engineTrace (some l) ts, l < m) ∧
      (engineTrace (some l) ts).Pairwise (· < ·) := by
  induction ts with
  | nil => intro l; simp [engineTrace]
  | cons t ts ih =>
    intro l
    by_cases h : l < 60 * (t / 60)
    · simp only [engineTrace, h, if_pos]
      refine ⟨?_, ?_⟩
      · intro m hm
        rcases List.mem_cons.mp hm with rfl | hm
        · exact h
        · exact lt_trans h ((ih (60 * (t / 60))).1 m hm)
      · exact List.pairwise_cons.mpr
          ⟨(ih (60 * (t / 60))).1, (ih (60 * (t / 60))).2⟩
    · simp only [engineTrace, h, if_neg, not_false_iff]
      refine ⟨?_, (ih l).2⟩
      intro m hm
      exact (ih l).1 m hm

/-- Claim C7: within one planner replica the processed minutes are
strictly monotonically increasing — each wake truncates the clock to the
minute and processes it only when `last_processed_minute` is unset or
strictly smaller, so no minute is processed twice and paused-over minutes
are never backfilled. -/
theorem planner_minutes_strictly_monotone (ts : List ℕ) :
    (engineTrace none ts).Pairwise (· < ·) := by
  cases ts with
  | nil => simp [engineTrace]
  | cons t ts =>
    simp only [engineTrace]
    exact List.pairwise_cons.mpr
      ⟨(engineTrace_some_lt ts (60 * (t / 60))).1,
        (engineTrace_some_lt ts (60 * (t / 60))).2⟩

/- ### Claim C8 — end scan always enqueues OFF, bypassing the decision -/

/-- Claim C8: an end-scan entry that passes the idempotency gate produces
exactly one OFF command with trigger reason `SCHEDULER_END`, no audit
event, zero decision-service calls and zero provider or measurement
reads. -/
theorem end_scan_bypasses_decision (granted : Bool)
    (entry : DueSchedulerEntry) (h : granted = true) :
    processEndEntry granted entry =
      ([⟨entry.device_id, entry.slot_id, SchedulerCommandAction.OFF,
          "SCHEDULER_END", none, none⟩], [], 0, 0) := by
  simp [processEndEntry, h]

theorem end_scan_bypasses_decision_witness :
    processEndEntry true ⟨7, 9, some 3, true, some 5, some "kW"⟩ =
      ([⟨7, 9, SchedulerCommandAction.OFF, "SCHEDULER_END", none, none⟩],
        [], 0, 0) :=
  end_scan_bypasses_decision true ⟨7, 9, some 3, true, some 5, some "kW"⟩ rfl

/- ### Claim C2 — ack for a terminal command is a complete no-op -/

/-- Claim C2: when the ack's `command_id` refers to a command already in a
terminal status (`ACK_OK` or `ACK_FAIL`), `mark_ack` leaves the command
unchanged and reports `changed = false`, and the ack handler rolls back
and returns before the device runtime-state update and the audit append:
no device-state update, no audit event, no commit. -/
theorem terminal_ack_is_noop (cmd : SchedulerCommand) (transport_ok : Bool)
    (actual_state : Option Bool) (now_utc : ℚ)
    (h : cmd.status = SchedulerCommandStatus.ACK_OK ∨
      cmd.status = SchedulerCommandStatus.ACK_FAIL) :
    mark_ack (some cmd) transport_ok = (some cmd, false) ∧
      _handle_ack (some cmd) transport_ok actual_state now_utc =
        ⟨[], [], false⟩ := by
  have hm : mark_ack (some cmd) transport_ok = (some cmd, false) := by
    simp [mark_ack, h]
  exact ⟨hm, by simp [_handle_ack, hm]⟩

theorem terminal_ack_is_noop_witness :
    mark_ack (some ⟨4, .ON, .ACK_OK, 1, none, none⟩) true =
        (some ⟨4, .ON, .ACK_OK, 1, none, none⟩, false) ∧
      _handle_ack (some ⟨4, .ON, .ACK_OK, 1, none, none⟩) true
          (some true) 99 = ⟨[], [], false⟩ :=
  terminal_ack_is_noop ⟨4, .ON, .ACK_OK, 1, none, none⟩ true (some true) 99
    (Or.inl rfl)

/- ### Claim C3 — publish-failure retry policy -/

/-- Claim C3: on a failed publish, if the command's attempt count is below
`max_retry + 1` it is parked as `PENDING_RETRY` with `ack_deadline_at`
cleared and `next_attempt_at = now + retry_backoff_sec + jitter` for the
uniform draw `jitter ∈ [0, retry_jitter_sec]` (so the instant lies in
`[now + backoff, now + backoff + retry_jitter_sec]`) and no audit event;
otherwise it closes as `ACK_FAIL` with exactly one
`SCHEDULER_ACK_FAILED` audit event carrying trigger reason
`DISPATCH_PUBLISH_FAILED` and null pin state. -/
theorem publish_failure_retry_policy (cmd : SchedulerCommand) (now_utc : ℚ)
    (max_retry : ℕ) (retry_backoff_sec retry_jitter_sec jitter : ℚ)
    (h0 : 0 ≤ jitter) (h1 : jitter ≤ retry_jitter_sec) :
    (cmd.attempt < max_retry + 1 →
      handlePublishFailure cmd now_utc max_retry retry_backoff_sec jitter =
        ({ cmd with
            status := .PENDING_RETRY
            ack_deadline_at := none
            next_attempt_at :=
              some (now_utc + retry_backoff_sec + jitter) }, []) ∧
      now_utc + retry_backoff_sec ≤ now_utc + retry_backoff_sec + jitter ∧
      now_utc + retry_backoff_sec + jitter ≤
        now_utc + retry_backoff_sec + retry_jitter_sec) ∧
    (¬ cmd.attempt < max_retry + 1 →
      handlePublishFailure cmd now_utc max_retry retry_backoff_sec jitter =
        ({ cmd with status := .ACK_FAIL },
          [⟨cmd.device_id, .SCHEDULER_ACK_FAILED, "DISPATCH_PUBLISH_FAILED",
            none, none, none⟩])) := by
  constructor
  · intro hlt
    refine ⟨?_, by linarith, by linarith⟩
    simp [handlePublishFailure, mark_publish_failure, hlt]
  · intro hge
    simp [handlePublishFailure, mark_publish_failure, hge]

theorem publish_failure_retry_policy_witness :
    ((⟨5, .ON, .IN_FLIGHT, 1, some 10, none⟩ :
        SchedulerCommand).attempt < 1 + 1 →
      handlePublishFailure ⟨5, .ON, .IN_FLIGHT, 1, some 10, none⟩ 100 1
          (1/4) (1/8) =
        (⟨5, .ON, .PENDING_RETRY, 1, none, some (100 + 1/4 + 1/8)⟩, []) ∧
      (100 : ℚ) + 1/4 ≤ 100 + 1/4 + 1/8 ∧
      (100 : ℚ) + 1/4 + 1/8 ≤ 100 + 1/4 + 1/4) ∧
    (¬ (⟨5, .ON, .IN_FLIGHT, 1, some 10, none⟩ :
        SchedulerCommand).attempt < 1 + 1 →
      handlePublishFailure ⟨5, .ON, .IN_FLIGHT, 1, some 10, none⟩ 100 1
          (1/4) (1/8) =
        (⟨5, .ON, .ACK_FAIL, 1, some 10, none⟩,
          [⟨5, .SCHEDULER_ACK_FAILED, "DISPATCH_PUBLISH_FAILED",
            none, none, none⟩])) :=
  publish_failure_retry_policy ⟨5, .ON, .IN_FLIGHT, 1, some 10, none⟩ 100 1
    (1/4) (1/4) (1/8) (by norm_num) (by norm_num)

/- ### Claim C10 — actual_state/is_on precedence in ack payloads -/

/-- Claim C10: `actual_state` wins over `is_on` only when it is a JSON
boolean — a non-boolean `actual_state` is ignored in favour of a boolean
`is_on`; when neither is a boolean the resolved state is `None`, and a
`None` state never produces a device runtime-state update, even on
`ACK_OK`. -/
theorem ack_state_bool_precedence (data : List (String × JsonValue))
    (b : Bool) (cmd : SchedulerCommand) (transport_ok : Bool) (now_utc : ℚ)
    (h1 : jsonAsBool (data.lookup "actual_state") = none) :
    (data.lookup "is_on" = some (.bool b) → _ack_state data = some b) ∧
    (jsonAsBool (data.lookup "is_on") = none → _ack_state data = none) ∧
    (_handle_ack (some cmd) transport_ok none now_utc).deviceStateUpdates
      = [] := by
  refine ⟨?_, ?_, ?_⟩
  · intro h2
    unfold _ack_state
    rw [h1, h2]
    rfl
  · intro h2
    unfold _ack_state
    rw [h1, h2]
  · by_cases ht : cmd.status = SchedulerCommandStatus.ACK_OK ∨
      cmd.status = SchedulerCommandStatus.ACK_FAIL
    · simp [_handle_ack, mark_ack, ht]
    · simp [_handle_ack, mark_ack, ht]

theorem ack_state_bool_precedence_witness :
    (([("actual_state", JsonValue.str "on"), ("is_on", JsonValue.bool true)]
        : List (String × JsonValue)).lookup "is_on" =
          some (.bool true) →
      _ack_state [("actual_state", JsonValue.str "on"),
        ("is_on", JsonValue.bool true)] = some true) ∧
    (jsonAsBool (([("actual_state", JsonValue.str "on"),
        ("is_on", JsonValue.bool true)]
        : List (String × JsonValue)).lookup "is_on") = none →
      _ack_state [("actual_state", JsonValue.str "on"),
        ("is_on", JsonValue.bool true)] = none) ∧
    (_handle_ack (some ⟨4, .ON, .IN_FLIGHT, 1, some 10, none⟩) true none 50
      ).deviceStateUpdates = [] :=
  ack_state_bool_precedence
    [("actual_state", JsonValue.str "on"), ("is_on", JsonValue.bool true)]
    true ⟨4, .ON, .IN_FLIGHT, 1, some 10, none⟩ true 50 (by decide)

/- ### Claim C1 — acquire succeeds exactly once per key within the TTL -/

theorem acquireTrace_held (ttl t0 : ℚ) (key : String) (ts rest : List ℚ)
    (hts : ∀ t ∈ ts, t0 ≤ t ∧ t < t0 + ttl) :
    acquireTrace [(key, t0 + ttl)] ttl key (ts ++ rest) =
      ts.map (fun _ => false) ++ acquireTrace [(key, t0 + ttl)] ttl key rest
    := by
  induction ts with
  | nil => simp
  | cons t ts ih =>
    have ht := hts t (List.mem_cons_self t ts)
    have hstep : acquireMemory [(key, t0 + ttl)] t ttl key =
        (false, [(key, t0 + ttl)]) := by
      simp [acquireMemory, ht.2]
    simp only [List.cons_append, acquireTrace, hstep, List.map_cons,
      List.cons_append]
    exact congrArg _ (ih fun t ht' => hts t (List.mem_cons_of_mem _ ht'))

/-- Claim C1: on the in-memory backend, for a key first acquired at `t0`
with a store whose map holds no entry for it, the first `acquire` returns
`true`, every further `acquire` of the same key at an instant inside the
TTL window `[t0, t0 + ttl)` returns `false`, and once the TTL has expired
a fresh `acquire` returns `true` again (the map is pruned of expired
entries on every call). -/
theorem acquire_exactly_once_within_ttl (ttl t0 tLate : ℚ) (key : String)
    (ts : List ℚ) (hts : ∀ t ∈ ts, t0 ≤ t ∧ t < t0 + ttl)
    (hlate : t0 + ttl ≤ tLate) :
    acquireTrace [] ttl key (t0 :: ts) =
      true :: ts.map (fun _ => false) ∧
    acquireTrace [] ttl key ((t0 :: ts) ++ [tLate]) =
      (true :: ts.map (fun _ => false)) ++ [true] := by
  have hfirst : acquireMemory [] t0 ttl key = (true, [(key, t0 + ttl)]) := by
    simp [acquireMemory]
  have hlast : acquireMemory [(key, t0 + ttl)] tLate ttl key =
      (true, [(key, tLate + ttl)]) := by
    simp [acquireMemory, not_lt.mpr hlate]
  constructor
  · simp only [acquireTrace, hfirst]
    have h := acquireTrace_held ttl t0 key ts [] hts
    rw [List.append_nil] at h
    rw [h]
    simp only [acquireTrace, List.append_nil]
  · simp only [List.cons_append, acquireTrace, hfirst]
    simp only [List.append_eq]
    rw [acquireTrace_held ttl t0 key ts [tLate] hts]
    simp only [acquireTrace, hlast, List.cons_append, List.nil_append]

theorem acquire_exactly_once_within_ttl_witness :
    (∀ t ∈ [(10 : ℚ), 30, 59], (0 : ℚ) ≤ t ∧ t < 0 + 60) ∧
    ((0 : ℚ) + 60 ≤ 60) ∧
    acquireTrace [] 60 "d:s:m:ON" (0 :: [(10 : ℚ), 30, 59]) =
      true :: [(10 : ℚ), 30, 59].map (fun _ => false) ∧
    acquireTrace [] 60 "d:s:m:ON" ((0 :: [(10 : ℚ), 30, 59]) ++ [60]) =
      (true :: [(10 : ℚ), 30, 59].map (fun _ => false)) ++ [true] := by
  have hts : ∀ t ∈ [(10 : ℚ), 30, 59], (0 : ℚ) ≤ t ∧ t < 0 + 60 := by
    intro t ht
    simp only [List.mem_cons, List.not_mem_nil, or_false] at ht
    rcases ht with rfl | rfl | rfl <;> norm_num
  have h := acquire_exactly_once_within_ttl 60 0 60 "d:s:m:ON"
    [(10 : ℚ), 30, 59] hts (by norm_num)
  exact ⟨hts, by norm_num, h.1, h.2⟩

/- ### Claim C4 — staleness is strict: age = expected_interval_sec is fresh -/

/-- Claim C4: on the threshold-gated path that reaches the staleness
check, the decision is `SKIP_NO_POWER_DATA` with trigger reason
`POWER_STALE` exactly when the measurement age
`now_utc - measured_at` (naive `measured_at` read as UTC) is strictly
greater than `expected_interval_sec`; an age exactly equal to the
interval is not stale. -/
theorem staleness_is_strict (entry : DueSchedulerEntry) (now_utc : ℚ)
    (p : Provider) (m : ProviderMeasurement) (tv iv : ℚ) (tu : String)
    (h1 : entry.use_power_threshold = true)
    (h2 : entry.power_threshold_value = some tv)
    (h3 : _normalize_unit entry.power_threshold_unit = some tu)
    (h4 : p.enabled = true)
    (h5 : p.expected_interval_sec = some iv)
    (h6 : 0 < iv) :
    ((SchedulerDecisionService.decide entry now_utc (some p)
        (some m)).kind = DecisionKind.SKIP_NO_POWER_DATA ∧
      (SchedulerDecisionService.decide entry now_utc (some p)
        (some m)).trigger_reason = "POWER_STALE") ↔
      iv < now_utc - _to_utc_aware m.measured_at := by
  have hen : ¬ p.enabled = false := by simp [h4]
  have hiv : ¬ iv ≤ 0 := not_le.mpr h6
  by_cases hage : iv < now_utc - _to_utc_aware m.measured_at
  · simp only [SchedulerDecisionService.decide, h1, h2, h3, h5, hen, hiv,
      hage, Bool.true_eq_false, if_false, if_pos]
    simp [hage]
  · simp only [SchedulerDecisionService.decide, h1, h2, h3, h5, hen, hiv,
      hage, Bool.true_eq_false, if_false]
    rcases hmv : m.measured_value with _ | v
    · simp [hage]
    · rcases hc : _convert_power_unit v
          ((_normalize_unit m.measured_unit).orElse
            fun _ => _normalize_unit p.unit) (some tu) with _ | c
      · simp [hc, hage]
      · by_cases hcmp : tv ≤ c
        · simp [hc, hcmp, hage]
        · simp [hc, hcmp, hage]

theorem staleness_is_strict_witness :
    ((⟨1, 2, some 3, true, some 5, some "kW"⟩ :
        DueSchedulerEntry).use_power_threshold = true) ∧
    ((SchedulerDecisionService.decide ⟨1, 2, some 3, true, some 5, some "kW"⟩
        160 (some ⟨true, some 60, some "W"⟩)
        (some ⟨⟨100, none⟩, some 3000, some "W"⟩)).kind =
          DecisionKind.SKIP_NO_POWER_DATA ∧
      (SchedulerDecisionService.decide ⟨1, 2, some 3, true, some 5, some "kW"⟩
        160 (some ⟨true, some 60, some "W"⟩)
        (some ⟨⟨100, none⟩, some 3000, some "W"⟩)).trigger_reason =
          "POWER_STALE" ↔
      (60 : ℚ) < 160 - _to_utc_aware ⟨100, none⟩) := by
  refine ⟨rfl, ?_⟩
  exact staleness_is_strict ⟨1, 2, some 3, true, some 5, some "kW"⟩ 160
    ⟨true, some 60, some "W"⟩ ⟨⟨100, none⟩, some 3000, some "W"⟩ 5 60 "kW"
    rfl rfl normalize_kW rfl rfl (by norm_num)

/- ### Claim C5 — threshold comparison is `>=`, equality allows -/

/-- Claim C5: once the gated path has a successfully converted
measurement value `c`, the decision is `ALLOW_ON` with trigger reason
`SCHEDULER_MATCH`, `measured_value = c` and `measured_unit` the threshold
unit exactly when `c ≥ threshold_value` (equality allows), and otherwise
`SKIP_THRESHOLD_NOT_MET` with trigger reason `THRESHOLD_NOT_MET` and the
same value and unit. -/
theorem threshold_comparison_allows_equality (entry : DueSchedulerEntry)
    (now_utc : ℚ) (p : Provider) (m : ProviderMeasurement)
    (tv iv v c : ℚ) (tu : String)
    (h1 : entry.use_power_threshold = true)
    (h2 : entry.power_threshold_value = some tv)
    (h3 : _normalize_unit entry.power_threshold_unit = some tu)
    (h4 : p.enabled = true)
    (h5 : p.expected_interval_sec = some iv)
    (h6 : 0 < iv)
    (h7 : ¬ iv < now_utc - _to_utc_aware m.measured_at)
    (h8 : m.measured_value = some v)
    (h9 : _convert_power_unit v
      ((_normalize_unit m.measured_unit).orElse
        fun _ => _normalize_unit p.unit) (some tu) = some c) :
    (tv ≤ c →
      SchedulerDecisionService.decide entry now_utc (some p) (some m) =
        ⟨DecisionKind.ALLOW_ON, "SCHEDULER_MATCH", some c, some tu⟩) ∧
    (¬ tv ≤ c →
      SchedulerDecisionService.decide entry now_utc (some p) (some m) =
        ⟨DecisionKind.SKIP_THRESHOLD_NOT_MET, "THRESHOLD_NOT_MET",
          some c, some tu⟩) := by
  have hen : ¬ p.enabled = false := by simp [h4]
  have hiv : ¬ iv ≤ 0 := not_le.mpr h6
  constructor
  · intro hcmp
    simp [SchedulerDecisionService.decide, h1, h2, h3, h5, h7, h8, h9,
      hen, hiv, hcmp]
  · intro hcmp
    simp [SchedulerDecisionService.decide, h1, h2, h3, h5, h7, h8, h9,
      hen, hiv, hcmp]

theorem threshold_comparison_allows_equality_witness :
    ((5 : ℚ) ≤ 5 →
      SchedulerDecisionService.decide ⟨1, 2, some 3, true, some 5, some "kW"⟩
        150 (some ⟨true, some 60, some "W"⟩)
        (some ⟨⟨100, none⟩, some 5000, some "W"⟩) =
        ⟨DecisionKind.ALLOW_ON, "SCHEDULER_MATCH", some 5, some "kW"⟩) ∧
    (¬ (5 : ℚ) ≤ 5 →
      SchedulerDecisionService.decide ⟨1, 2, some 3, true, some 5, some "kW"⟩
        150 (some ⟨true, some 60, some "W"⟩)
        (some ⟨⟨100, none⟩, some 5000, some "W"⟩) =
        ⟨DecisionKind.SKIP_THRESHOLD_NOT_MET, "THRESHOLD_NOT_MET",
          some 5, some "kW"⟩) := by
  refine threshold_comparison_allows_equality
    ⟨1, 2, some 3, true, some 5, some "kW"⟩ 150 ⟨true, some 60, some "W"⟩
    ⟨⟨100, none⟩, some 5000, some "W"⟩ 5 60 5000 5 "kW"
    rfl rfl normalize_kW rfl rfl (by norm_num) (by norm_num [_to_utc_aware])
    rfl (by with_unfolding_all decide)

/- ### Claim C9 — blank measurement unit falls back to the provider unit -/

theorem dropWhile_dropWhile (p : Char → Bool) (l : List Char) :
    (l.dropWhile p).dropWhile p = l.dropWhile p := by
  induction l with
  | nil => rfl
  | cons a l ih =>
    by_cases h : p a
    · simp [List.dropWhile_cons, h, ih]
    · simp [List.dropWhile_cons, h]

theorem head?_dropWhile_false (p : Char → Bool) (l : List Char) :
    ∀ a, (l.dropWhile p).head? = some a → p a = false := by
  induction l with
  | nil => intro a h; simp at h
  | cons b l ih =>
    intro a h
    by_cases hb : p b
    · rw [List.dropWhile_cons_of_pos hb] at h
      exact ih a h
    · rw [List.dropWhile_cons_of_neg hb] at h
      simp only [List.head?_cons, Option.some_inj] at h
      subst h
      simpa using hb

theorem dropWhile_eq_self_of_head (p : Char → Bool) (l : List Char)
    (h : ∀ a, l.head? = some a → p a = false) : l.dropWhile p = l := by
  cases l with
  | nil => rfl
  | cons a l =>
    have := h a rfl
    simp [List.dropWhile_cons, this]

theorem dropWhile_suffix_decomp (p : Char → Bool) (l : List Char) :
    ∃ t, t ++ l.dropWhile p = l := by
  induction l with
  | nil => exact ⟨[], rfl⟩
  | cons a l ih =>
    by_cases h : p a
    · obtain ⟨t, ht⟩ := ih
      exact ⟨a :: t, by simp [List.dropWhile_cons, h, ht]⟩
    · exact ⟨[], by simp [List.dropWhile_cons, h]⟩

theorem stripList_idem (l : List Char) :
    stripList (stripList l) = stripList l := by
  unfold stripList
  have hBlast : ∀ a,
      ((l.dropWhile isPySpace).reverse.dropWhile isPySpace).getLast? =
        some a → isPySpace a = false := by
    intro a ha
    rcases eq_or_ne ((l.dropWhile isPySpace).reverse.dropWhile isPySpace)
        [] with hBnil | hBne
    · rw [hBnil] at ha; simp at ha
    · obtain ⟨t, ht⟩ :=
        dropWhile_suffix_decomp isPySpace (l.dropWhile isPySpace).reverse
      have hg : ((l.dropWhile isPySpace).reverse).getLast? = some a := by
        rw [← ht, List.getLast?_append_of_ne_nil _ hBne] at *
        exact ha
      rw [List.getLast?_reverse] at hg
      exact head?_dropWhile_false isPySpace l a hg
  have h1 : (((l.dropWhile isPySpace).reverse.dropWhile
        isPySpace).reverse).dropWhile isPySpace =
      ((l.dropWhile isPySpace).reverse.dropWhile isPySpace).reverse := by
    apply dropWhile_eq_self_of_head
    intro a ha
    rw [List.head?_reverse] at ha
    exact hBlast a ha
  rw [h1, List.reverse_reverse, dropWhile_dropWhile]

theorem pyStrip_idem (s : String) : pyStrip (pyStrip s) = pyStrip s :=
  congrArg String.mk (stripList_idem s.toList)

theorem normalize_unit_idem (o : Option String) :
    _normalize_unit (_normalize_unit o) = _normalize_unit o := by
  rcases o with _ | v
  · rfl
  · by_cases h0 : pyStrip v = ""
    · rw [show _normalize_unit (some v) = none from by
        simp [_normalize_unit, h0]]
      rfl
    · by_cases h1 : pyLower (pyStrip v) = "kw"
      · rw [show _normalize_unit (some v) = some "kW" from by
          simp [_normalize_unit, h0, h1]]
        exact normalize_kW
      · by_cases h2 : pyLower (pyStrip v) = "mw"
        · rw [show _normalize_unit (some v) = some "MW" from by
            simp [_normalize_unit, h0, h1, h2]]
          exact normalize_MW
        · by_cases h3 : pyLower (pyStrip v) = "w"
          · rw [show _normalize_unit (some v) = some "W" from by
              simp [_normalize_unit, h0, h1, h2, h3]]
            exact normalize_W
          · have hv : _normalize_unit (some v) = some (pyStrip v) := by
              simp [_normalize_unit, h0, h1, h2, h3]
            rw [hv]
            simp [_normalize_unit, pyStrip_idem, h0, h1, h2, h3]

theorem pyLower_W : pyLower "W" = "w" := by with_unfolding_all decide

theorem pyLower_kW : pyLower "kW" = "kw" := by with_unfolding_all decide

theorem pyLower_MW : pyLower "MW" = "mw" := by with_unfolding_all decide

theorem isConvertibleUnit_iff_unit_word (s : String) :
    isConvertibleUnit (some s) =
      (pyLower (pyStrip s) == "w" || pyLower (pyStrip s) == "kw" ||
        pyLower (pyStrip s) == "mw") := by
  by_cases h0 : pyStrip s = ""
  · have hpl : pyLower "" = "" := by with_unfolding_all decide
    simp only [isConvertibleUnit, _normalize_unit, h0, hpl, if_pos]
    with_unfolding_all decide
  · by_cases h1 : pyLower (pyStrip s) = "kw"
    · simp [isConvertibleUnit, _normalize_unit, h0, h1, factors_kW]
    · by_cases h2 : pyLower (pyStrip s) = "mw"
      · simp [isConvertibleUnit, _normalize_unit, h0, h1, h2, factors_MW]
      · by_cases h3 : pyLower (pyStrip s) = "w"
        · simp [isConvertibleUnit, _normalize_unit, h0, h1, h2, h3,
            factors_W]
        · have hW : pyStrip s ≠ "W" := fun h => h3 (by rw [h]; exact pyLower_W)
          have hkW : pyStrip s ≠ "kW" :=
            fun h => h1 (by rw [h]; exact pyLower_kW)
          have hMW : pyStrip s ≠ "MW" :=
            fun h => h2 (by rw [h]; exact pyLower_MW)
          simp [isConvertibleUnit, _normalize_unit, _POWER_FACTORS,
            h0, h1, h2, h3, hW, hkW, hMW]

/-- The effective source unit of the power conversion: the measurement's
unit when it normalises to something, else the provider's unit. -/
def effectiveSourceUnit (m : ProviderMeasurement) (p : Provider) :
    Option String :=
  match _normalize_unit m.measured_unit with
  | some _ => m.measured_unit
  | none => p.unit

theorem normalize_effectiveSourceUnit (m : ProviderMeasurement)
    (p : Provider) :
    _normalize_unit (effectiveSourceUnit m p) =
      (_normalize_unit m.measured_unit).orElse
        fun _ => _normalize_unit p.unit := by
  unfold effectiveSourceUnit
  cases hmu : _normalize_unit m.measured_unit with
  | none => rfl
  | some u => rw [hmu]; rfl

/-- Claim C9: a measurement unit that is null, empty or whitespace-only
normalises to `None`, and the decision service then uses the provider's
unit for the conversion (the decision equals the one on a measurement
carrying the provider's unit); and on the path that reaches the
conversion, `SKIP_NO_POWER_DATA` with trigger reason
`POWER_UNIT_MISMATCH` arises exactly when the effective source unit or
the threshold unit fails to be one of `W`/`kW`/`MW` case-insensitively
(after stripping), the sense made precise by the last conjunct. -/
theorem blank_unit_fallback_and_mismatch (entry : DueSchedulerEntry)
    (now_utc : ℚ) (p : Provider) (m : ProviderMeasurement)
    (tv iv v : ℚ) (tu : String)
    (h1 : entry.use_power_threshold = true)
    (h2 : entry.power_threshold_value = some tv)
    (h3 : _normalize_unit entry.power_threshold_unit = some tu)
    (h4 : p.enabled = true)
    (h5 : p.expected_interval_sec = some iv)
    (h6 : 0 < iv)
    (h7 : ¬ iv < now_utc - _to_utc_aware m.measured_at)
    (h8 : m.measured_value = some v) :
    (_normalize_unit m.measured_unit = none →
      SchedulerDecisionService.decide entry now_utc (some p) (some m) =
        SchedulerDecisionService.decide entry now_utc (some p)
          (some ⟨m.measured_at, m.measured_value, p.unit⟩)) ∧
    ((SchedulerDecisionService.decide entry now_utc (some p)
        (some m)).trigger_reason = "POWER_UNIT_MISMATCH" ↔
      ¬ (isConvertibleUnit (effectiveSourceUnit m p) = true ∧
        isConvertibleUnit entry.power_threshold_unit = true)) ∧
    (∀ s : String, isConvertibleUnit (some s) =
      (pyLower (pyStrip s) == "w" || pyLower (pyStrip s) == "kw" ||
        pyLower (pyStrip s) == "mw")) := by
  have hen : ¬ p.enabled = false := by simp [h4]
  have hiv : ¬ iv ≤ 0 := not_le.mpr h6
  have htu : _normalize_unit (some tu) = some tu := by
    have h := normalize_unit_idem entry.power_threshold_unit
    rw [h3] at h
    exact h
  have hconv_none :
      (_convert_power_unit v (_normalize_unit (effectiveSourceUnit m p))
          (some tu) = none) ↔
        ¬ (isConvertibleUnit (effectiveSourceUnit m p) = true ∧
          isConvertibleUnit entry.power_threshold_unit = true) := by
    unfold _convert_power_unit isConvertibleUnit
    rw [normalize_unit_idem (effectiveSourceUnit m p), htu, h3]
    cases he : _normalize_unit (effectiveSourceUnit m p) with
    | none => simp
    | some u =>
      cases hf : _POWER_FACTORS u with
      | none => simp [hf]
      | some fu =>
        cases htf : _POWER_FACTORS tu with
        | none => simp [hf, htf]
        | some ftu => simp [hf, htf]
  refine ⟨?_, ?_, isConvertibleUnit_iff_unit_word⟩
  · intro hmu
    cases hpu : _normalize_unit p.unit with
    | none =>
      simp [SchedulerDecisionService.decide, hmu, hpu, Option.orElse]
    | some u =>
      simp [SchedulerDecisionService.decide, hmu, hpu, Option.orElse]
  · cases hc : _convert_power_unit v
        ((_normalize_unit m.measured_unit).orElse
          fun _ => _normalize_unit p.unit) (some tu) with
    | none =>
      have hd : SchedulerDecisionService.decide entry now_utc (some p)
          (some m) =
          ⟨.SKIP_NO_POWER_DATA, "POWER_UNIT_MISMATCH", none, none⟩ := by
        simp [SchedulerDecisionService.decide, h1, h2, h3, h5, h7, h8,
          hen, hiv, hc]
      rw [hd]
      have hcn : _convert_power_unit v
          (_normalize_unit (effectiveSourceUnit m p)) (some tu) = none := by
        rw [normalize_effectiveSourceUnit]
        exact hc
      constructor
      · intro _
        exact hconv_none.mp hcn
      · intro _
        rfl
    | some c =>
      have hcne : _convert_power_unit v
          (_normalize_unit (effectiveSourceUnit m p)) (some tu) = some c := by
        rw [normalize_effectiveSourceUnit]
        exact hc
      have hAB : isConvertibleUnit (effectiveSourceUnit m p) = true ∧
          isConvertibleUnit entry.power_threshold_unit = true := by
        by_contra hn
        rw [hconv_none.mpr hn] at hcne
        exact Option.noConfusion hcne
      by_cases hcmp : tv ≤ c
      · have hd : SchedulerDecisionService.decide entry now_utc (some p)
            (some m) =
            ⟨.ALLOW_ON, "SCHEDULER_MATCH", some c, some tu⟩ := by
          simp [SchedulerDecisionService.decide, h1, h2, h3, h5, h7, h8,
            hen, hiv, hc, hcmp]
        rw [hd]
        have hne : ¬ ("SCHEDULER_MATCH" : String) = "POWER_UNIT_MISMATCH" := by
          decide
        constructor
        · intro h
          exact absurd h hne
        · intro hn
          exact absurd hAB hn
      · have hd : SchedulerDecisionService.decide entry now_utc (some p)
            (some m) =
            ⟨.SKIP_THRESHOLD_NOT_MET, "THRESHOLD_NOT_MET",
              some c, some tu⟩ := by
          simp [SchedulerDecisionService.decide, h1, h2, h3, h5, h7, h8,
            hen, hiv, hc, hcmp]
        rw [hd]
        have hne : ¬ ("THRESHOLD_NOT_MET" : String) = "POWER_UNIT_MISMATCH" := by
          decide
        constructor
        · intro h
          exact absurd h hne
        · intro hn
          exact absurd hAB hn

theorem blank_unit_fallback_and_mismatch_witness :
    (_normalize_unit (some " ") = none →
      SchedulerDecisionService.decide ⟨1, 2, some 3, true, some 5, some "kW"⟩
          150 (some ⟨true, some 60, some "W"⟩)
          (some ⟨⟨100, none⟩, some 5000, some " "⟩) =
        SchedulerDecisionService.decide ⟨1, 2, some 3, true, some 5, some "kW"⟩
          150 (some ⟨true, some 60, some "W"⟩)
          (some ⟨⟨100, none⟩, some 5000, some "W"⟩)) ∧
    ((SchedulerDecisionService.decide ⟨1, 2, some 3, true, some 5, some "kW"⟩
        150 (some ⟨true, some 60, some "W"⟩)
        (some ⟨⟨100, none⟩, some 5000, some " "⟩)).trigger_reason =
          "POWER_UNIT_MISMATCH" ↔
      ¬ (isConvertibleUnit (effectiveSourceUnit
            ⟨⟨100, none⟩, some 5000, some " "⟩ ⟨true, some 60, some "W"⟩) =
          true ∧
        isConvertibleUnit (some "kW") = true)) ∧
    (∀ s : String, isConvertibleUnit (some s) =
      (pyLower (pyStrip s) == "w" || pyLower (pyStrip s) == "kw" ||
        pyLower (pyStrip s) == "mw")) :=
  blank_unit_fallback_and_mismatch ⟨1, 2, some 3, true, some 5, some "kW"⟩
    150 ⟨true, some 60, some "W"⟩ ⟨⟨100, none⟩, some 5000, some " "⟩
    5 60 5000 "kW" rfl rfl normalize_kW rfl rfl (by norm_num)
    (by norm_num [_to_utc_aware]) rfl
